import Mathlib

/-!
Verification of the triage decision engine of `src/streamlit_app.py`.

Shallow embedding conventions:
* Python `int` fields are `ℤ`, Python `float` values are `ℚ` (the arithmetic
  the claims exercise is exact decimal arithmetic, represented exactly in `ℚ`).
* `round(x, 2)` (Python round-half-to-even) is `round2`.
* The logistic map `y ↦ 1 / (1 + exp (-y))` of `sigmoid` and the square root
  applied by `numpy.std` are transcendental; they are abstracted as function
  parameters `sig` and `rt`.  The source's clamp of the linear argument to
  ±40 is embedded explicitly.
* `numpy.random.default_rng(seed)` is abstracted as a function
  `gauss : ℕ → ℕ → ℚ` mapping a seed and a draw index to a standard-normal
  draw; `rng.normal(0, s)` at the n-th draw is `s * gauss seed n`.
  A `world : ℕ` parameter models ambient mutable state (wall clock,
  process-global generators); the source constructs its generator locally
  from the constant seed 42 and never reads ambient state, so the embedding
  takes `world` and ignores it.
-/

/-- The `Patient` dataclass of the source. -/
structure Patient where
  age : ℤ
  hr : ℤ
  sbp : ℤ
  spo2 : ℤ
  rr : ℤ
  temp : ℚ
  gcs_e : ℤ
  gcs_v : ℤ
  gcs_m : ℤ
  chest_pain : Bool
  dyspnea : Bool
  trauma : Bool
  pain_level : ℤ
  onset : String
  progression : String
  fast_stroke : Bool
  bleeding : Bool
  abdominal_pain : Bool
  pregnancy : Bool
  infection_suspected : Bool
  anaphylaxis : Bool
  poisoning_overdose : Bool

/-- `gcs_total`: sum of the three GCS sub-scores. -/
def gcs_total (p : Patient) : ℤ :=
  p.gcs_e + p.gcs_v + p.gcs_m

/-- Python `round` to an integer: round half to even (banker's rounding). -/
def pyRound (q : ℚ) : ℤ :=
  if q - ⌊q⌋ = 1/2 then (if 2 ∣ ⌊q⌋ then ⌊q⌋ else ⌊q⌋ + 1) else round q

/-- Python `round(x, 2)`: round to two decimal places. -/
def round2 (q : ℚ) : ℚ :=
  (pyRound (100 * q) : ℚ) / 100

/-- `calculate_shock_index`: `round(hr / sbp, 2) if sbp > 0 else 0.0`. -/
def calculate_shock_index (hr sbp : ℤ) : ℚ :=
  if sbp > 0 then round2 ((hr : ℚ) / (sbp : ℚ)) else 0.0

/-- `calculate_ews`: simplified early warning score, accumulated per vital. -/
def calculate_ews (hr rr sbp : ℤ) (temp : ℚ) (spo2 : ℤ) : ℤ :=
  let score : ℤ := 0
  let score := score + (if hr > 110 ∨ hr < 50 then 2 else 0)
  let score := score + (if rr > 24 ∨ rr < 10 then 2 else 0)
  let score := score + (if sbp < 90 ∨ sbp > 180 then 2 else 0)
  let score := score + (if temp > 38.5 ∨ temp < 35.5 then 1 else 0)
  let score := score + (if spo2 < 94 then 3 else 0)
  score

/-- `validate_inputs`: returns `(len(hard) == 0, hard + soft)`. -/
def validate_inputs (p : Patient) : Bool × List String :=
  let hard : List String :=
    (if ¬ (0 ≤ p.age ∧ p.age ≤ 120) then ["Tuổi ngoài phạm vi 0–120."] else []) ++
    (if ¬ (20 ≤ p.hr ∧ p.hr ≤ 250) then ["HR ngoài phạm vi 20–250."] else []) ++
    (if ¬ (40 ≤ p.sbp ∧ p.sbp ≤ 250) then ["SBP ngoài phạm vi 40–250."] else []) ++
    (if ¬ (50 ≤ p.spo2 ∧ p.spo2 ≤ 100) then ["SpO₂ ngoài phạm vi 50–100%."] else []) ++
    (if ¬ (5 ≤ p.rr ∧ p.rr ≤ 60) then ["RR ngoài phạm vi 5–60."] else []) ++
    (if ¬ (34.0 ≤ p.temp ∧ p.temp ≤ 42.0) then ["Nhiệt độ ngoài phạm vi 34–42°C."] else []) ++
    (if ¬ (3 ≤ gcs_total p ∧ gcs_total p ≤ 15) then ["GCS không hợp lệ."] else [])
  let soft : List String :=
    (if p.spo2 < 88 ∧ p.dyspnea = false then
      ["SpO₂ rất thấp nhưng chưa tick Khó thở (kiểm tra lại)."] else []) ++
    (if p.pregnancy = true ∧ p.age < 10 then ["Thai kỳ + tuổi rất nhỏ (kiểm tra lại)."] else [])
  (hard.isEmpty, hard ++ soft)

/-- `red_flags`: the hard-safety rules, appended in source order. -/
def red_flags (p : Patient) (si : ℚ) (ews : ℤ) : List String :=
  let g := gcs_total p
  (if p.anaphylaxis then ["Nghi sốc phản vệ"] else []) ++
  (if g ≤ 8 then ["Hôn mê nặng (GCS ≤ 8)"] else []) ++
  (if p.fast_stroke then ["FAST dương tính (nghi đột quỵ)"] else []) ++
  (if p.spo2 < 90 then ["Suy hô hấp nặng (SpO₂ < 90%)"] else []) ++
  (if p.sbp < 90 then ["Sốc / tụt huyết áp (SBP < 90)"] else []) ++
  (if si > 1.0 then ["Shock Index nguy hiểm (" ++ toString si ++ ")"] else []) ++
  (if p.rr ≥ 30 then ["Thở nhanh nặng (RR ≥ 30)"] else []) ++
  (if p.hr ≥ 140 then ["Mạch nhanh nặng (HR ≥ 140)"] else []) ++
  (if p.bleeding ∧ (p.sbp < 100 ∨ p.hr > 110) then ["Chảy máu + huyết động xấu"] else []) ++
  (if p.poisoning_overdose ∧ g ≤ 12 then ["Nghi ngộ độc + giảm tri giác"] else []) ++
  (if ews ≥ 7 then ["EWS rất cao (≥ 7)"] else [])

/-- `uncertainty_level`: bands the ensemble standard deviation. -/
def uncertainty_level (u : ℚ) : String :=
  if u ≥ 0.20 then "CAO" else if u ≥ 0.10 then "TRUNG BÌNH" else "THẤP"

/-- `triage_from_risk`: risk banding used as stage 4 of the policy. -/
def triage_from_risk (r : ℚ) : String :=
  if r ≥ 0.70 then "🔴 ĐỎ" else if r ≥ 0.30 then "🟡 VÀNG" else "🟢 XANH"

/-- `should_alert`: early-alert gate, `bool(flags) or (ews >= 5)`. -/
def should_alert (flags : List String) (ews : ℤ) : Bool :=
  (!flags.isEmpty) || decide (ews ≥ 5)

/-- Python `str.startswith`, over the character sequences of the strings. -/
def py_startswith (s pre : String) : Bool :=
  pre.data.isPrefixOf s.data

/-- Condition of stage 3 of `triage_decision` (EWS / key-symptom disjunction,
exactly the disjuncts on source lines 365-373). -/
def stage3_cond (p : Patient) (ews : ℤ) : Bool :=
  decide (ews ≥ 3) || p.chest_pain || decide (p.pain_level ≥ 7) || p.fast_stroke ||
    p.anaphylaxis || p.bleeding || p.poisoning_overdose

/-- `triage_decision`: the safety-first decision policy, returning
`(label, color, rationale)`. -/
def triage_decision (flags : List String) (ews : ℤ) (risk u : ℚ) (p : Patient) :
    String × String × String :=
  if flags ≠ [] then
    ("🔴 ĐỎ (CẤP CỨU)", "#FF4B4B", "Luật an toàn kích hoạt: " ++ String.intercalate ", " flags)
  else if ews ≥ 5 then
    ("🔴 ĐỎ (CẤP CỨU)", "#FF4B4B", "EWS cao (≥5): " ++ toString ews ++ ". Ưu tiên đánh giá ngay.")
  else if stage3_cond p ews then
    let note := "Ưu tiên theo triệu chứng/điểm: EWS=" ++ toString ews ++ "."
    let note := if uncertainty_level u = "CAO" then
        note ++ " Uncertainty CAO → cần bác sĩ xác nhận/đo lại." else note
    ("🟡 VÀNG (ƯU TIÊN)", "#FFA500", note)
  else
    let base := triage_from_risk risk
    if py_startswith base "🔴" then
      if uncertainty_level u = "CAO" then
        ("🟡 VÀNG (REVIEW)", "#FFA500", "Risk cao nhưng Uncertainty CAO → cần bác sĩ review.")
      else
        ("🔴 ĐỎ (CẢNH BÁO)", "#FF4B4B", "Risk cao & Uncertainty thấp → cảnh báo mạnh.")
    else if py_startswith base "🟡" then
      if uncertainty_level u = "CAO" then
        ("🟡 VÀNG (REVIEW)", "#FFA500", "Vùng xám + Uncertainty CAO → đo lại vitals/bổ sung ngữ cảnh.")
      else
        ("🟡 VÀNG (ƯU TIÊN)", "#FFA500", "Risk trung bình → theo dõi sát/khám ưu tiên.")
    else
      ("🟢 XANH (ỔN ĐỊNH)", "#28A745", "Risk thấp → ít nguy kịch (bác sĩ quyết định cuối).")

/-- The clamp applied before the logistic function in `sigmoid`:
`x = max(min(x, 40), -40)`.  The logistic map itself is the abstract `sig`. -/
def sigmoid (sig : ℚ → ℚ) (x : ℚ) : ℚ :=
  sig (max (min x 40) (-40))

/-- The feature dictionary built by `features`, in Python dict insertion order. -/
def features (p : Patient) : List (String × ℚ) :=
  [("age", (p.age : ℚ)),
   ("hr_excess", max 0 ((p.hr : ℚ) - 90)),
   ("sbp_drop", max 0 (100 - (p.sbp : ℚ))),
   ("spo2_drop", max 0 (95 - (p.spo2 : ℚ))),
   ("rr_excess", max 0 ((p.rr : ℚ) - 18)),
   ("temp_excess", max 0 (p.temp - 37.5)),
   ("gcs_drop", max 0 (15 - (gcs_total p : ℚ))),
   ("chest_pain", if p.chest_pain then 1 else 0),
   ("dyspnea", if p.dyspnea then 1 else 0),
   ("trauma", if p.trauma then 1 else 0),
   ("pain_hi", if p.pain_level ≥ 7 then 1 else 0),
   ("onset_sudden", if p.onset = "Đột ngột" then 1 else 0),
   ("worsening", if p.progression = "Nặng dần" then 1 else 0),
   ("fast_stroke", if p.fast_stroke then 1 else 0),
   ("bleeding", if p.bleeding then 1 else 0),
   ("abdominal_pain", if p.abdominal_pain then 1 else 0),
   ("pregnancy", if p.pregnancy then 1 else 0),
   ("infection", if p.infection_suspected then 1 else 0),
   ("anaphylaxis", if p.anaphylaxis then 1 else 0),
   ("poisoning", if p.poisoning_overdose then 1 else 0)]

/-- The fixed base weights of the `base` dict (without the intercept). -/
def base_w : String → ℚ
  | "age" => 0.010
  | "hr_excess" => 0.020
  | "sbp_drop" => 0.050
  | "spo2_drop" => 0.120
  | "rr_excess" => 0.030
  | "temp_excess" => 0.40
  | "gcs_drop" => 0.55
  | "chest_pain" => 0.25
  | "dyspnea" => 0.55
  | "trauma" => 0.35
  | "pain_hi" => 0.15
  | "onset_sudden" => 0.12
  | "worsening" => 0.18
  | "fast_stroke" => 0.80
  | "bleeding" => 0.60
  | "abdominal_pain" => 0.25
  | "pregnancy" => 0.30
  | "infection" => 0.45
  | "anaphylaxis" => 1.20
  | "poisoning" => 0.55
  | _ => 0

/-- The intercept `base["b0"]`. -/
def base_b0 : ℚ := -7.2

/-- The inner loop `for k, v in x.items(): z += base[k] * (1 + rng.normal(0, 0.10)) * v`,
with `g n` the n-th standard-normal draw of the local generator, starting at
draw index `k`. -/
def wsum (g : ℕ → ℚ) : ℕ → List (String × ℚ) → ℚ
  | _, [] => 0
  | k, kv :: rest => base_w kv.1 * (1 + 0.10 * g k) * kv.2 + wsum g (k + 1) rest

/-- The linear score of ensemble instance `i`: the generator draws one
intercept perturbation (`rng.normal(0, 0.30)`) and then the 20 weight
perturbations, i.e. 21 sequential draws per instance. -/
def instance_z (g : ℕ → ℚ) (x : List (String × ℚ)) (i : ℕ) : ℚ :=
  base_b0 + 0.30 * g (21 * i) + wsum g (21 * i + 1) x

/-- Stable insertion of the Python stable sort by descending `abs(contribution)`. -/
def insert_by_abs (a : String × ℚ) : List (String × ℚ) → List (String × ℚ)
  | [] => [a]
  | b :: rest => if |a.2| > |b.2| then a :: b :: rest else b :: insert_by_abs a rest

/-- Python `sorted(..., key=lambda kv: abs(kv[1]), reverse=True)` (stable). -/
def sort_by_abs : List (String × ℚ) → List (String × ℚ)
  | [] => []
  | a :: rest => insert_by_abs a (sort_by_abs rest)

/-- `ensemble_predict_with_explain`: 25 perturbed logistic instances from a
generator seeded with the constant 42; returns
`(mean risk, std-dev uncertainty, sorted contributions, raw predictions)`.
`sig` abstracts the logistic map, `rt` the square root taken by `np.std`
(`ddof=1`), `gauss` the seeded normal stream, and `world` the ambient mutable
state that the source never reads. -/
def ensemble_predict_with_explain (sig rt : ℚ → ℚ) (gauss : ℕ → ℕ → ℚ) (world : ℕ)
    (p : Patient) : ℚ × ℚ × List (String × ℚ) × List ℚ :=
  let x := features p
  let g := gauss 42
  let preds := (List.range 25).map (fun i => sigmoid sig (instance_z g x i))
  let mean_r := preds.sum / 25
  let var_u := (preds.map (fun q => (q - mean_r) ^ 2)).sum / 24
  let contrib := x.map (fun kv => (kv.1, base_w kv.1 * kv.2))
  (mean_r, rt var_u, sort_by_abs contrib, preds)

/-- The per-case pipeline of the intake tab (validation already passed):
shock index, EWS, red flags, ensemble, then the decision policy. -/
def evaluate_case (sig rt : ℚ → ℚ) (gauss : ℕ → ℕ → ℚ) (world : ℕ) (p : Patient) :
    String × String × String :=
  let si := calculate_shock_index p.hr p.sbp
  let ews := calculate_ews p.hr p.rr p.sbp p.temp p.spo2
  let flags := red_flags p si ews
  let e := ensemble_predict_with_explain sig rt gauss world p
  triage_decision flags ews e.1 e.2.1 p

/-- The intake pipeline with the risk estimator as an explicit fallible
collaborator.  The source (lines 659-677) validates, stops on hard failure,
computes scores and flags, then calls the estimator with no exception
handler, so an estimator error propagates and no outcome is produced. -/
def run_intake (estimator : Patient → Except String (ℚ × ℚ)) (p : Patient) :
    Except String (String × String × String) :=
  if (validate_inputs p).1 = true then
    let si := calculate_shock_index p.hr p.sbp
    let ews := calculate_ews p.hr p.rr p.sbp p.temp p.spo2
    let flags := red_flags p si ews
    match estimator p with
    | Except.error e => Except.error e
    | Except.ok ru => Except.ok (triage_decision flags ews ru.1 ru.2 p)
  else Except.error "ValidationError"

/-- The first three features, which do not involve `spo2`. -/
def featPre (p : Patient) : List (String × ℚ) :=
  [("age", (p.age : ℚ)),
   ("hr_excess", max 0 ((p.hr : ℚ) - 90)),
   ("sbp_drop", max 0 (100 - (p.sbp : ℚ)))]

/-- The features after `spo2_drop`, which do not involve `spo2`. -/
def featPost (p : Patient) : List (String × ℚ) :=
  [("rr_excess", max 0 ((p.rr : ℚ) - 18)),
   ("temp_excess", max 0 (p.temp - 37.5)),
   ("gcs_drop", max 0 (15 - (gcs_total p : ℚ))),
   ("chest_pain", if p.chest_pain then 1 else 0),
   ("dyspnea", if p.dyspnea then 1 else 0),
   ("trauma", if p.trauma then 1 else 0),
   ("pain_hi", if p.pain_level ≥ 7 then 1 else 0),
   ("onset_sudden", if p.onset = "Đột ngột" then 1 else 0),
   ("worsening", if p.progression = "Nặng dần" then 1 else 0),
   ("fast_stroke", if p.fast_stroke then 1 else 0),
   ("bleeding", if p.bleeding then 1 else 0),
   ("abdominal_pain", if p.abdominal_pain then 1 else 0),
   ("pregnancy", if p.pregnancy then 1 else 0),
   ("infection", if p.infection_suspected then 1 else 0),
   ("anaphylaxis", if p.anaphylaxis then 1 else 0),
   ("poisoning", if p.poisoning_overdose then 1 else 0)]

/-- A fully normal reference record (the default form values of the app). -/
def basePatient : Patient :=
  { age := 35, hr := 80, sbp := 120, spo2 := 98, rr := 16, temp := 36.6,
    gcs_e := 4, gcs_v := 5, gcs_m := 6,
    chest_pain := false, dyspnea := false, trauma := false, pain_level := 0,
    onset := "Từ từ", progression := "Ổn định",
    fast_stroke := false, bleeding := false, abdominal_pain := false,
    pregnancy := false, infection_suspected := false,
    anaphylaxis := false, poisoning_overdose := false }

/-- Record with suspected anaphylaxis (fires a red flag). -/
def pC1 : Patient := { basePatient with anaphylaxis := true }

/-- Record with EWS = 5 and no red flags (hr 120 gives +2, spo2 92 gives +3). -/
def pC2 : Patient := { basePatient with hr := 120, spo2 := 92, sbp := 130 }

/-- Record whose only abnormality is the suspected-poisoning flag. -/
def pC4 : Patient := { basePatient with poisoning_overdose := true }

/-- Record with very low SpO₂ and no dyspnea flag (soft advisory case). -/
def pSoft : Patient := { basePatient with spo2 := 87 }

/-- The reference record with a given age (for the validation boundary cases). -/
def withAge (a : ℤ) : Patient := { basePatient with age := a }

theorem unc_CAO {u : ℚ} (h : u ≥ 0.20) : uncertainty_level u = "CAO" := by
  unfold uncertainty_level
  rw [if_pos h]

theorem unc_not_CAO {u : ℚ} (h : ¬ u ≥ 0.20) : ¬ (uncertainty_level u = "CAO") := by
  unfold uncertainty_level
  rw [if_neg h]
  by_cases h2 : u ≥ 0.10
  · rw [if_pos h2]
    decide
  · rw [if_neg h2]
    decide

theorem triage_from_risk_red {r : ℚ} (h : r ≥ 0.70) : triage_from_risk r = "🔴 ĐỎ" := by
  unfold triage_from_risk
  rw [if_pos h]

theorem py_red_red : py_startswith "🔴 ĐỎ" "🔴" = true := by decide

theorem triage_stage12_skip (ews : ℤ) (risk u : ℚ) (p : Patient) (h2 : ¬ ews ≥ 5) :
    triage_decision [] ews risk u p =
      (if stage3_cond p ews then
        ("🟡 VÀNG (ƯU TIÊN)", "#FFA500",
          if uncertainty_level u = "CAO" then
            "Ưu tiên theo triệu chứng/điểm: EWS=" ++ toString ews ++ "." ++
              " Uncertainty CAO → cần bác sĩ xác nhận/đo lại."
          else "Ưu tiên theo triệu chứng/điểm: EWS=" ++ toString ews ++ ".")
      else
        if py_startswith (triage_from_risk risk) "🔴" then
          if uncertainty_level u = "CAO" then
            ("🟡 VÀNG (REVIEW)", "#FFA500", "Risk cao nhưng Uncertainty CAO → cần bác sĩ review.")
          else
            ("🔴 ĐỎ (CẢNH BÁO)", "#FF4B4B", "Risk cao & Uncertainty thấp → cảnh báo mạnh.")
        else if py_startswith (triage_from_risk risk) "🟡" then
          if uncertainty_level u = "CAO" then
            ("🟡 VÀNG (REVIEW)", "#FFA500",
              "Vùng xám + Uncertainty CAO → đo lại vitals/bổ sung ngữ cảnh.")
          else
            ("🟡 VÀNG (ƯU TIÊN)", "#FFA500", "Risk trung bình → theo dõi sát/khám ưu tiên.")
        else
          ("🟢 XANH (ỔN ĐỊNH)", "#28A745", "Risk thấp → ít nguy kịch (bác sĩ quyết định cuối).")) := by
  unfold triage_decision
  rw [if_neg (by simp : ¬ (([] : List String) ≠ [])), if_neg h2]

/-- C1: red-flag dominance — whenever `red_flags` is non-empty, `triage_decision`
returns the Critical (red) label with the safety-rule rationale, for every risk
and uncertainty value. -/
theorem red_flag_dominance (p : Patient) (si : ℚ) (ews : ℤ) (risk u : ℚ)
    (h : red_flags p si ews ≠ []) :
    triage_decision (red_flags p si ews) ews risk u p =
      ("🔴 ĐỎ (CẤP CỨU)", "#FF4B4B",
        "Luật an toàn kích hoạt: " ++ String.intercalate ", " (red_flags p si ews)) := by
  unfold triage_decision
  rw [if_pos h]

/-- Witness for C1 at a concrete anaphylaxis record. -/
theorem red_flag_dominance_witness :
    red_flags pC1 (67/100) 0 ≠ [] ∧
      triage_decision (red_flags pC1 (67/100) 0) 0 (1/2) (1/20) pC1 =
        ("🔴 ĐỎ (CẤP CỨU)", "#FF4B4B",
          "Luật an toàn kích hoạt: " ++ String.intercalate ", " (red_flags pC1 (67/100) 0)) :=
  ⟨by norm_num [red_flags, pC1, basePatient, gcs_total],
    red_flag_dominance pC1 (67/100) 0 (1/2) (1/20)
      (by norm_num [red_flags, pC1, basePatient, gcs_total])⟩

/-- C3: the early warning score is exactly the sum of the five independent
band contributions, and the claimed boundary values hold
(hr = 110 ↦ 0 vs hr = 111 ↦ 2, spo2 = 94 ↦ 0 vs spo2 = 93 ↦ 3). -/
theorem ews_sum_of_bands :
    (∀ (hr rr sbp : ℤ) (temp : ℚ) (spo2 : ℤ),
      calculate_ews hr rr sbp temp spo2 =
        (if hr > 110 ∨ hr < 50 then 2 else 0) + (if rr > 24 ∨ rr < 10 then 2 else 0) +
          (if sbp < 90 ∨ sbp > 180 then 2 else 0) + (if temp > 38.5 ∨ temp < 35.5 then 1 else 0) +
          (if spo2 < 94 then 3 else 0)) ∧
      calculate_ews 110 16 120 36.6 98 = 0 ∧ calculate_ews 111 16 120 36.6 98 = 2 ∧
      calculate_ews 80 16 120 36.6 94 = 0 ∧ calculate_ews 80 16 120 36.6 93 = 3 := by
  refine ⟨fun hr rr sbp temp spo2 => ?_, ?_, ?_, ?_, ?_⟩
  · simp only [calculate_ews]
    rw [zero_add]
  all_goals norm_num [calculate_ews]

/-- C8: the shock index is total — `hr / sbp` rounded to two decimals when
`sbp > 0`, and the defined value `0` when `sbp ≤ 0` (no division is attempted
there), as checked on concrete boundary inputs. -/
theorem shock_index_total :
    (∀ hr sbp : ℤ, (sbp ≤ 0 → calculate_shock_index hr sbp = 0) ∧
      (0 < sbp → calculate_shock_index hr sbp = round2 ((hr : ℚ) / (sbp : ℚ)))) ∧
      calculate_shock_index 120 100 = 1.2 ∧ calculate_shock_index 120 0 = 0 ∧
      calculate_shock_index 100 (-40) = 0 ∧ calculate_shock_index 100 30 = 3.33 := by
  refine ⟨fun hr sbp => ⟨fun h => ?_, fun h => ?_⟩, ?_, ?_, ?_, ?_⟩
  · unfold calculate_shock_index
    rw [if_neg (not_lt.mpr h)]
    norm_num
  · unfold calculate_shock_index
    rw [if_pos h]
  · norm_num [calculate_shock_index, round2, pyRound, round_eq]
  · norm_num [calculate_shock_index]
  · norm_num [calculate_shock_index]
  · norm_num [calculate_shock_index, round2, pyRound, round_eq]

/-- Witness for C8 at `sbp = -5` (hypothesis `sbp ≤ 0`). -/
theorem shock_index_total_witness : calculate_shock_index 120 (-5) = 0 :=
  (shock_index_total.1 120 (-5)).1 (by norm_num)

/-- C7: `validate_inputs` accepts exactly when every hard range holds; the age
boundaries behave as claimed, and the low-SpO₂ soft check yields only an
advisory message while the record is still accepted. -/
theorem validation_boundaries :
    (∀ p : Patient, (validate_inputs p).1 = true ↔
      ((0 ≤ p.age ∧ p.age ≤ 120) ∧ (20 ≤ p.hr ∧ p.hr ≤ 250) ∧ (40 ≤ p.sbp ∧ p.sbp ≤ 250) ∧
        (50 ≤ p.spo2 ∧ p.spo2 ≤ 100) ∧ (5 ≤ p.rr ∧ p.rr ≤ 60) ∧
        (34.0 ≤ p.temp ∧ p.temp ≤ 42.0) ∧ (3 ≤ gcs_total p ∧ gcs_total p ≤ 15))) ∧
      (validate_inputs (withAge 0)).1 = true ∧ (validate_inputs (withAge 120)).1 = true ∧
      (validate_inputs (withAge (-1))).1 = false ∧ (validate_inputs (withAge 121)).1 = false ∧
      (validate_inputs pSoft).1 = true ∧
      (validate_inputs pSoft).2 = ["SpO₂ rất thấp nhưng chưa tick Khó thở (kiểm tra lại)."] := by
  refine ⟨fun p => ?_, ?_, ?_, ?_, ?_, ?_, ?_⟩
  · simp only [validate_inputs, List.isEmpty_iff, List.append_eq_nil, ite_eq_right_iff,
      reduceCtorEq, imp_false, not_not]
    tauto
  all_goals norm_num [validate_inputs, withAge, pSoft, basePatient, gcs_total]

/-- C2 counterexample: the record `pC2` (hr 120, spo2 92, sbp 130) has no red
flags, EWS = 5, and — given a risk in the Critical band (0.80 ≥ 0.70) and a
high uncertainty (0.25 ≥ 0.20) — `triage_decision` still returns the Critical
label, because stage 2 (EWS ≥ 5) fires before the uncertainty downgrade. -/
theorem uncertainty_downgrade_claim_false :
    calculate_shock_index pC2.hr pC2.sbp = 23/25 ∧
      red_flags pC2 (23/25) 5 = [] ∧
      calculate_ews pC2.hr pC2.rr pC2.sbp pC2.temp pC2.spo2 = 5 ∧
      (0.80 : ℚ) ≥ 0.70 ∧ (0.25 : ℚ) ≥ 0.20 ∧
      (triage_decision (red_flags pC2 (23/25) 5) 5 0.80 0.25 pC2).1 = "🔴 ĐỎ (CẤP CỨU)" := by
  refine ⟨?_, ?_, ?_, by norm_num, by norm_num, ?_⟩
  · norm_num [calculate_shock_index, pC2, basePatient, round2, pyRound, round_eq]
  · norm_num [red_flags, pC2, basePatient, gcs_total]
  · norm_num [calculate_ews, pC2, basePatient]
  · rw [show red_flags pC2 (23/25) 5 = [] from by norm_num [red_flags, pC2, basePatient, gcs_total]]
    unfold triage_decision
    rw [if_neg (by simp : ¬ (([] : List String) ≠ [])), if_pos (by norm_num : (5:ℤ) ≥ 5)]

/-- C2 amended: the uncertainty downgrade holds only for records that actually
reach the risk-banding stage — no red flags and EWS < 5.  There, with risk in
the Critical band and high uncertainty, the outcome is the Priority label:
`🟡 VÀNG (REVIEW)` when no stage-3 symptom/score trigger holds, and
`🟡 VÀNG (ƯU TIÊN)` with the review note when one does — never a red label.
Records intercepted by red flags or EWS ≥ 5 are labelled Critical regardless
of risk and uncertainty. -/
theorem uncertainty_downgrade_amended (p : Patient) (ews : ℤ) (risk u : ℚ)
    (hews : ¬ ews ≥ 5) (hr : risk ≥ 0.70) (hu : u ≥ 0.20) :
    (stage3_cond p ews = true →
        triage_decision [] ews risk u p =
          ("🟡 VÀNG (ƯU TIÊN)", "#FFA500",
            "Ưu tiên theo triệu chứng/điểm: EWS=" ++ toString ews ++ "." ++
              " Uncertainty CAO → cần bác sĩ xác nhận/đo lại.")) ∧
      (stage3_cond p ews = false →
        triage_decision [] ews risk u p =
          ("🟡 VÀNG (REVIEW)", "#FFA500", "Risk cao nhưng Uncertainty CAO → cần bác sĩ review.")) ∧
      (triage_decision [] ews risk u p).1 ≠ "🔴 ĐỎ (CẤP CỨU)" ∧
      (triage_decision [] ews risk u p).1 ≠ "🔴 ĐỎ (CẢNH BÁO)" := by
  have hskip := triage_stage12_skip ews risk u p hews
  have hCAO : uncertainty_level u = "CAO" := unc_CAO hu
  have hred : triage_from_risk risk = "🔴 ĐỎ" := triage_from_risk_red hr
  refine ⟨fun h3 => ?_, fun h3 => ?_, ?_, ?_⟩
  · rw [hskip, if_pos h3, if_pos hCAO]
  · rw [hskip, if_neg (by simp [h3]), hred, if_pos py_red_red, if_pos hCAO]
  · by_cases h3 : stage3_cond p ews = true
    · rw [hskip, if_pos h3]
      show "🟡 VÀNG (ƯU TIÊN)" ≠ "🔴 ĐỎ (CẤP CỨU)"
      decide
    · rw [hskip, if_neg h3, hred, if_pos py_red_red, if_pos hCAO]
      decide
  · by_cases h3 : stage3_cond p ews = true
    · rw [hskip, if_pos h3]
      show "🟡 VÀNG (ƯU TIÊN)" ≠ "🔴 ĐỎ (CẢNH BÁO)"
      decide
    · rw [hskip, if_neg h3, hred, if_pos py_red_red, if_pos hCAO]
      decide

/-- Witness for the amended C2 at a concrete Critical-band, high-uncertainty
input on the reference record. -/
theorem uncertainty_downgrade_amended_witness :
    triage_decision [] 0 0.80 0.25 basePatient =
      ("🟡 VÀNG (REVIEW)", "#FFA500", "Risk cao nhưng Uncertainty CAO → cần bác sĩ review.") :=
  (uncertainty_downgrade_amended basePatient 0 0.80 0.25 (by norm_num) (by norm_num)
    (by norm_num)).2.1 (by decide)

/-- C4 counterexample: the record `pC4` has no red flags, EWS = 0, and none of
the five symptom triggers listed by the claim (no chest pain, pain < 7, no
stroke / anaphylaxis / bleeding flag), and a risk below the Priority band —
yet the symptom/score stage assigns the Priority label, because the source
also includes `poisoning_overdose` among the stage-3 triggers. -/
theorem stage3_trigger_claim_false :
    red_flags pC4 (calculate_shock_index pC4.hr pC4.sbp) 0 = [] ∧
      calculate_ews pC4.hr pC4.rr pC4.sbp pC4.temp pC4.spo2 = 0 ∧
      ¬ ((0 : ℤ) ≥ 3 ∨ pC4.chest_pain = true ∨ pC4.pain_level ≥ 7 ∨ pC4.fast_stroke = true ∨
        pC4.anaphylaxis = true ∨ pC4.bleeding = true) ∧
      (1/10 : ℚ) < 0.30 ∧
      (triage_decision [] 0 (1/10) (1/20) pC4).1 = "🟡 VÀNG (ƯU TIÊN)" := by
  refine ⟨?_, ?_, ?_, by norm_num, ?_⟩
  · norm_num [red_flags, pC4, basePatient, gcs_total, calculate_shock_index, round2, pyRound,
      round_eq]
  · norm_num [calculate_ews, pC4, basePatient]
  · decide
  · rw [triage_stage12_skip 0 (1/10) (1/20) pC4 (by norm_num),
      if_pos (by decide : stage3_cond pC4 0 = true)]

/-- C4 amended: with no red flags and EWS < 5, the symptom/score stage fires
exactly when EWS ≥ 3 or one of {chest pain, pain ≥ 7, stroke, anaphylaxis,
bleeding, **poisoning/overdose**} holds (the source includes the
poisoning/overdose flag, which the claim omitted); when it fires it returns
the Priority label, with the review-required note appended exactly when the
uncertainty is in the high band (u ≥ 0.20). -/
theorem stage3_trigger_amended (p : Patient) (ews : ℤ) (risk u : ℚ) (hews : ¬ ews ≥ 5) :
    (stage3_cond p ews = true ↔
        (ews ≥ 3 ∨ p.chest_pain = true ∨ p.pain_level ≥ 7 ∨ p.fast_stroke = true ∨
          p.anaphylaxis = true ∨ p.bleeding = true ∨ p.poisoning_overdose = true)) ∧
      (stage3_cond p ews = true → u ≥ 0.20 →
        triage_decision [] ews risk u p =
          ("🟡 VÀNG (ƯU TIÊN)", "#FFA500",
            "Ưu tiên theo triệu chứng/điểm: EWS=" ++ toString ews ++ "." ++
              " Uncertainty CAO → cần bác sĩ xác nhận/đo lại.")) ∧
      (stage3_cond p ews = true → ¬ u ≥ 0.20 →
        triage_decision [] ews risk u p =
          ("🟡 VÀNG (ƯU TIÊN)", "#FFA500",
            "Ưu tiên theo triệu chứng/điểm: EWS=" ++ toString ews ++ ".")) := by
  refine ⟨?_, fun h3 hu => ?_, fun h3 hu => ?_⟩
  · simp only [stage3_cond, Bool.or_eq_true, decide_eq_true_eq]
    tauto
  · rw [triage_stage12_skip ews risk u p hews, if_pos h3, if_pos (unc_CAO hu)]
  · rw [triage_stage12_skip ews risk u p hews, if_pos h3, if_neg (unc_not_CAO hu)]

/-- Witness for the amended C4: the poisoning-only record fires stage 3 with
EWS = 0 and, at low uncertainty, yields the Priority label without the
review note. -/
theorem stage3_trigger_amended_witness :
    triage_decision [] 0 (1/10) (1/20) pC4 =
      ("🟡 VÀNG (ƯU TIÊN)", "#FFA500", "Ưu tiên theo triệu chứng/điểm: EWS=" ++ toString (0 : ℤ) ++ ".") :=
  (stage3_trigger_amended pC4 0 (1/10) (1/20) (by norm_num)).2.2 (by decide) (by norm_num)

/-- C10: the early-alert gate is purely rule-based — `should_alert` is true
exactly when the red-flag list is non-empty or EWS ≥ 5; consequently a record
labelled Critical purely through the risk band (no flags, EWS < 5,
risk ≥ 0.70, low uncertainty) does not trigger the early alert, as the
concrete risk-band-critical case shows. -/
theorem alert_rule_based_only :
    (∀ (flags : List String) (ews : ℤ),
        should_alert flags ews = true ↔ (flags ≠ [] ∨ ews ≥ 5)) ∧
      (∀ ews : ℤ, ¬ ews ≥ 5 → should_alert [] ews = false) ∧
      (triage_decision [] 0 0.80 (1/20) basePatient).1 = "🔴 ĐỎ (CẢNH BÁO)" := by
  refine ⟨fun flags ews => ?_, fun ews h => ?_, ?_⟩
  · cases flags <;> simp [should_alert]
  · simp [should_alert, h]
  · rw [triage_stage12_skip 0 0.80 (1/20) basePatient (by norm_num),
      if_neg (by decide : ¬ stage3_cond basePatient 0 = true),
      triage_from_risk_red (by norm_num : (0.80 : ℚ) ≥ 0.70), if_pos py_red_red,
      if_neg (unc_not_CAO (by norm_num))]

/-- Witness for C10 (hypothesis `¬ 0 ≥ 5` discharged at EWS = 0). -/
theorem alert_rule_based_only_witness : should_alert [] 0 = false :=
  alert_rule_based_only.2.1 0 (by norm_num)

/-- C5 counterexample: when the risk estimator fails, the intake pipeline of
the source has no handler — the failure propagates and **no** outcome is
produced at all, instead of the claimed rule-only degraded recommendation. -/
theorem estimator_failure_claim_false :
    run_intake (fun _ => Except.error "ComputationError") basePatient =
      Except.error "ComputationError" := by
  unfold run_intake
  rw [if_pos (by norm_num [validate_inputs, basePatient, gcs_total])]

/-- C5 amended: the pipeline calls the estimator with no error handling; if
the estimator fails on a validated record the failure propagates unchanged —
the evaluation produces no triage outcome (in particular it never defaults to
a Stable outcome), and no rule-only degraded mode exists in the code. -/
theorem estimator_failure_propagates (estimator : Patient → Except String (ℚ × ℚ))
    (p : Patient) (e : String) (hv : (validate_inputs p).1 = true)
    (hf : estimator p = Except.error e) :
    run_intake estimator p = Except.error e := by
  unfold run_intake
  rw [if_pos hv, hf]

/-- Witness for the amended C5 at a concrete failing estimator. -/
theorem estimator_failure_propagates_witness :
    run_intake (fun _ => Except.error "NaN in ensemble") basePatient =
      Except.error "NaN in ensemble" :=
  estimator_failure_propagates (fun _ => Except.error "NaN in ensemble") basePatient
    "NaN in ensemble" (by norm_num [validate_inputs, basePatient, gcs_total]) rfl

/-- C6: determinism — the estimator builds its generator locally from the
constant seed 42 and never reads ambient state, so its output (risk mean,
uncertainty, contributions, raw predictions) and the resulting decision
outcome are identical across invocations under any two ambient states. -/
theorem pipeline_deterministic (sig rt : ℚ → ℚ) (gauss : ℕ → ℕ → ℚ) (w₁ w₂ : ℕ)
    (p : Patient) :
    ensemble_predict_with_explain sig rt gauss w₁ p =
        ensemble_predict_with_explain sig rt gauss w₂ p ∧
      evaluate_case sig rt gauss w₁ p = evaluate_case sig rt gauss w₂ p :=
  ⟨rfl, rfl⟩

theorem sigmoid_mono (sig : ℚ → ℚ) (hsig : Monotone sig) {a b : ℚ} (h : a ≤ b) :
    sigmoid sig a ≤ sigmoid sig b := by
  unfold sigmoid
  exact hsig (max_le_max (min_le_min h le_rfl) le_rfl)

theorem wsum_single_mono (g : ℕ → ℚ) (name : String) (v₁ v₂ : ℚ) (post : List (String × ℚ)) :
    ∀ (pre : List (String × ℚ)) (k : ℕ), v₂ ≤ v₁ →
      0 ≤ base_w name * (1 + 0.10 * g (k + pre.length)) →
      wsum g k (pre ++ (name, v₂) :: post) ≤ wsum g k (pre ++ (name, v₁) :: post) := by
  intro pre
  induction pre with
  | nil =>
    intro k hv hc
    simp only [List.nil_append, wsum, List.length_nil, Nat.add_zero] at hc ⊢
    exact add_le_add_right (mul_le_mul_of_nonneg_left hv hc) _
  | cons a pre ih =>
    intro k hv hc
    simp only [List.cons_append, wsum]
    refine add_le_add_left (ih (k + 1) hv ?_) _
    have hlen : k + 1 + pre.length = k + (a :: pre).length := by
      simp only [List.length_cons]
      omega
    rw [hlen]
    exact hc

/-- C9: risk monotonicity in SpO₂ — lowering the SpO₂ field (which raises the
`spo2_drop` feature) never lowers the ensemble risk mean, for every monotone
logistic map `sig` and every draw stream whose multiplicative weight
perturbations `1 + 0.10·gauss 42 (21 i + 4)` on the `spo2_drop` weight are
nonnegative (the base weight 0.120 is positive, so the perturbed weight stays
nonnegative). -/
theorem risk_monotone_spo2 (sig rt : ℚ → ℚ) (gauss : ℕ → ℕ → ℚ) (w : ℕ) (p : Patient)
    (s₁ s₂ : ℤ) (hsig : Monotone sig)
    (hmul : ∀ i : ℕ, i < 25 → 0 ≤ 1 + 0.10 * gauss 42 (21 * i + 4))
    (hs : s₁ ≤ s₂) :
    (ensemble_predict_with_explain sig rt gauss w { p with spo2 := s₂ }).1 ≤
      (ensemble_predict_with_explain sig rt gauss w { p with spo2 := s₁ }).1 := by
  show ((List.range 25).map
      (fun i => sigmoid sig (instance_z (gauss 42) (features { p with spo2 := s₂ }) i))).sum / 25 ≤
    ((List.range 25).map
      (fun i => sigmoid sig (instance_z (gauss 42) (features { p with spo2 := s₁ }) i))).sum / 25
  rw [div_le_div_iff_of_pos_right (by norm_num : (0:ℚ) < 25)]
  refine List.sum_le_sum fun i hi => ?_
  have hi25 : i < 25 := List.mem_range.mp hi
  refine sigmoid_mono sig hsig ?_
  unfold instance_z
  refine add_le_add_left ?_ _
  rw [show features { p with spo2 := s₂ } =
      featPre p ++ ("spo2_drop", max 0 (95 - (s₂ : ℚ))) :: featPost p from rfl,
    show features { p with spo2 := s₁ } =
      featPre p ++ ("spo2_drop", max 0 (95 - (s₁ : ℚ))) :: featPost p from rfl]
  refine wsum_single_mono (gauss 42) "spo2_drop" (max 0 (95 - (s₁ : ℚ)))
    (max 0 (95 - (s₂ : ℚ))) (featPost p) (featPre p) (21 * i + 1) ?_ ?_
  · refine max_le_max le_rfl ?_
    have hcast : (s₁ : ℚ) ≤ (s₂ : ℚ) := by exact_mod_cast hs
    linarith
  · rw [show (featPre p).length = 3 from rfl, show 21 * i + 1 + 3 = 21 * i + 4 from by omega,
      show base_w "spo2_drop" = 0.120 from rfl]
    exact mul_nonneg (by norm_num) (hmul i hi25)

/-- Witness for C9 with the identity logistic map and the all-zero draw
stream, comparing SpO₂ 90 against 95 on the reference record. -/
theorem risk_monotone_spo2_witness :
    (ensemble_predict_with_explain id id (fun _ _ => 0) 0 { basePatient with spo2 := 95 }).1 ≤
      (ensemble_predict_with_explain id id (fun _ _ => 0) 0 { basePatient with spo2 := 90 }).1 :=
  risk_monotone_spo2 id id (fun _ _ => 0) 0 basePatient 90 95 monotone_id
    (fun i _ => by norm_num) (by norm_num)
